import Mathlib

/-!
Shallow embedding of `src/flask_app.py` (a Dash internet-speed dashboard):
identity lookups, Starlink classification, speedtest sampling with
sentinel-on-config-failure, CSV persistence, and the per-trigger cycle.
Network effects are modelled by passing the outcome of each external call
as a parameter; Python exceptions are modelled with `Except`.
-/

namespace Wifi

/-- A cell value of a record: numeric (Python float modelled as `ℚ`) or
a string such as the `"Error"` sentinel. -/
inductive Field where
  | num (q : ℚ)
  | str (s : String)
deriving Repr, DecidableEq

/-- Whether a `Field` is a numeric value. -/
def Field.isNum : Field → Bool
  | .num _ => true
  | .str _ => false

/-- The JSON object returned by the ISP/geo lookup (`ipinfo.io`); each key
may be absent, which Python's `dict.get` surfaces as `None`/a default. -/
structure IspInfo where
  org : Option String
  asn : Option String
  loc : Option String
  city : Option String
  region : Option String
  country : Option String
deriving Repr, DecidableEq

/-- A Python exception escaping one of the external calls. -/
inductive PyErr where
  | requestError
  | speedtestError
deriving Repr, DecidableEq

def known_starlink_asn : String := "AS14593"

def known_starlink_org : String := "Space Exploration Technologies Corp"

/-- `is_starlink` from the source: `isp_info.get('org') == known_starlink_org
or isp_info.get('asn') == known_starlink_asn`.  `dict.get` with no default
yields `None`, which never equals a string, hence the `Option` comparison. -/
def is_starlink (isp_info : IspInfo) : Bool :=
  isp_info.org == some known_starlink_org || isp_info.asn == some known_starlink_asn

/-- Outcome of invoking the speedtest subsystem: a successful run with the
raw download/upload rates and ping reported by `st.results.dict()`, a
`speedtest.ConfigRetrievalError` raised while constructing `Speedtest()`,
or any other exception raised during the measurement. -/
inductive SpeedtestOutcome where
  | ok (download upload ping : ℚ)
  | configRetrievalError
  | otherException
deriving Repr, DecidableEq

/-- The three speed values of the dict built by `get_internet_speed`. -/
structure SpeedInfo where
  download : Field
  upload : Field
  ping : Field
deriving Repr, DecidableEq

/-- `get_internet_speed` from the source: divides the raw download and
upload rates by 1 000 000 and passes ping through; only
`speedtest.ConfigRetrievalError` is caught (yielding the `"Error"`
sentinels), any other exception propagates. -/
def get_internet_speed : SpeedtestOutcome → Except PyErr SpeedInfo
  | .ok download upload ping =>
      .ok { download := .num (download / 1000000)
            upload := .num (upload / 1000000)
            ping := .num ping }
  | .configRetrievalError =>
      .ok { download := .str "Error", upload := .str "Error", ping := .str "Error" }
  | .otherException => .error .speedtestError

/-- Python's `str.split(sep)` for a one-character separator, as
`loc.split(',')` in the source: the character list is split at every
occurrence of the separator, so `"1,2,3"` gives three parts, `"bad-loc"`
gives one part, and `""` gives `[""]`, exactly as in Python. -/
def pySplitChar (sep : Char) (s : String) : List String :=
  (s.toList.splitOn sep).map fun cs => String.mk cs

/-- The `details` dict built by `get_internet_details` (one
`MeasurementRecord`), fields in the source's column order. -/
structure Details where
  timestamp : String
  ipAddress : String
  isp : String
  city : String
  region : String
  country : String
  latitude : String
  longitude : String
  networkType : String
  download : Field
  upload : Field
  ping : Field
deriving Repr, DecidableEq

/-- The `"Network Type"` expression of line 62:
`"Starlink" if is_starlink(isp_info) else isp_info.get('org', 'Unknown')`. -/
def network_type (isp_info : IspInfo) : String :=
  if is_starlink isp_info then "Starlink" else isp_info.org.getD "Unknown"

/-- `get_internet_details` from the source.  The outcomes of the two HTTP
lookups and of the speedtest run are parameters; `datetime.now()` is the
parameter `now`.  A failing lookup or a non-config speedtest exception
propagates (nothing is caught here). -/
def get_internet_details (ipRes : Except PyErr String)
    (ispRes : Except PyErr IspInfo) (speed : SpeedtestOutcome)
    (now : String) : Except PyErr Details := do
  let ip ← ipRes
  let isp_info ← ispRes
  let loc := pySplitChar ',' (isp_info.loc.getD "Unknown,Unknown")
  let speed_info ← get_internet_speed speed
  pure { timestamp := now
         ipAddress := ip
         isp := isp_info.org.getD "Unknown"
         city := isp_info.city.getD "Unknown"
         region := isp_info.region.getD "Unknown"
         country := isp_info.country.getD "Unknown"
         latitude := if loc.length > 1 then loc.getD 0 "Unknown" else "Unknown"
         longitude := if loc.length > 1 then loc.getD 1 "Unknown" else "Unknown"
         networkType := network_type isp_info
         download := speed_info.download
         upload := speed_info.upload
         ping := speed_info.ping }

/-- The fixed `fieldnames` header of `save_to_csv` / `load_data`. -/
def fieldnames : List String :=
  ["Timestamp", "IP Address", "ISP", "City", "Region", "Country", "Latitude",
   "Longitude", "Network Type", "Download Speed (Mbps)",
   "Upload Speed (Mbps)", "Ping (ms)"]

/-- A `details` dict as one CSV row, in the fixed column order. -/
def toRow (d : Details) : List Field :=
  [.str d.timestamp, .str d.ipAddress, .str d.isp, .str d.city, .str d.region,
   .str d.country, .str d.latitude, .str d.longitude, .str d.networkType,
   d.download, d.upload, d.ping]

/-- A pandas dataframe as persisted to / read from `internet_info.csv`. -/
structure Table where
  header : List String
  rows : List (List Field)
deriving Repr, DecidableEq

/-- The file `internet_info.csv`; `none` models the file not existing
(`pd.read_csv` raising `FileNotFoundError`). -/
abbrev CsvFile := Option Table

/-- `save_to_csv` from the source: read the CSV and `pd.concat` the new
row onto it; on `FileNotFoundError` start a one-row dataframe with the
fixed `fieldnames` columns; either way write the whole set back. -/
def save_to_csv (file : CsvFile) (details : Details) : Table :=
  match file with
  | some df => { header := df.header, rows := df.rows ++ [toRow details] }
  | none => { header := fieldnames, rows := [toRow details] }

/-- `load_data` from the source: read the CSV; on `FileNotFoundError`
return an empty dataframe with the fixed canonical columns. -/
def load_data (file : CsvFile) : Table :=
  match file with
  | some df => df
  | none => { header := fieldnames, rows := [] }

/-- `update_dashboard` from the source, restricted to its effect on the
log and the record of the cycle: `get_internet_details()` then
`save_to_csv(details)`.  An exception escaping `get_internet_details`
propagates out of the callback before `save_to_csv` runs, so the file is
left exactly as it was and no record exists for the cycle. -/
def update_dashboard (file : CsvFile) (ipRes : Except PyErr String)
    (ispRes : Except PyErr IspInfo) (speed : SpeedtestOutcome)
    (now : String) : CsvFile × Option Details :=
  match get_internet_details ipRes ispRes speed now with
  | .error _ => (file, none)
  | .ok details => (some (save_to_csv file details), some details)

/-- Repeated appends (the store state threaded through N cycles). -/
def appendAll (file : CsvFile) : List Details → CsvFile
  | [] => file
  | d :: ds => appendAll (some (save_to_csv file d)) ds

/-- The spec's wording for SpeedSampler normalization: conversion of a raw
byte-per-second rate into megabits per second (1 byte = 8 bits, 1 megabit
= 1 000 000 bits). -/
def spec_bytesPerSecondToMbps (b : ℚ) : ℚ := b * 8 / 1000000

/-- The conversion the code performs: a raw bit-per-second rate divided by
1 000 000 gives megabits per second. -/
def spec_bitsPerSecondToMbps (b : ℚ) : ℚ := b / 1000000

/-- Helper for C1: threading N appends through the store keeps the header
and appends exactly the N rows in order. -/
theorem load_appendAll (ds : List Details) : ∀ file : CsvFile,
    (load_data (appendAll file ds)).header = (load_data file).header ∧
    (load_data (appendAll file ds)).rows = (load_data file).rows ++ ds.map toRow := by
  induction ds with
  | nil => intro file; simp [appendAll]
  | cons d ds ih =>
    intro file
    obtain ⟨hh, hr⟩ := ih (some (save_to_csv file d))
    constructor
    · rw [appendAll, hh]; cases file <;> rfl
    · rw [appendAll, hr]; cases file <;> simp [save_to_csv, load_data]

/-- C1: `save_to_csv` followed by `load_data` returns exactly the rows that
`load_data` returned before, in order and under the same header, followed
by the new record's row; appending N records to a missing store and
reloading yields the N original rows under the canonical header. -/
theorem C1_append_then_loadAll (file : CsvFile) (d : Details) (ds : List Details) :
    (load_data (some (save_to_csv file d))).header = (load_data file).header ∧
    (load_data (some (save_to_csv file d))).rows = (load_data file).rows ++ [toRow d] ∧
    (load_data (appendAll none ds)).header = fieldnames ∧
    (load_data (appendAll none ds)).rows = ds.map toRow ∧
    (load_data (appendAll none ds)).rows.length = ds.length := by
  obtain ⟨hh, hr⟩ := load_appendAll ds none
  refine ⟨?_, ?_, hh, ?_, ?_⟩
  · cases file <;> rfl
  · cases file <;> simp [save_to_csv, load_data]
  · rw [hr]; rfl
  · rw [hr]; simp [load_data]

/-- C2: an `ispInfo` whose organization equals the known Starlink
organization string or whose asn equals the known Starlink ASN string is
classified `"Starlink"`; any other `ispInfo` gets its raw organization
string as network type, `"Unknown"` when the organization is absent. -/
theorem C2_classify (i : IspInfo) :
    (i.org = some known_starlink_org ∨ i.asn = some known_starlink_asn →
      network_type i = "Starlink") ∧
    (i.org ≠ some known_starlink_org → i.asn ≠ some known_starlink_asn →
      network_type i = i.org.getD "Unknown") := by
  constructor
  · rintro (h | h) <;> simp [network_type, is_starlink, h]
  · intro h1 h2
    simp [network_type, is_starlink, h1, h2]

/-- Witness for C2 at the Starlink organization and at a non-matching ISP. -/
theorem C2_classify_witness :
    network_type { org := some "Space Exploration Technologies Corp", asn := none,
                   loc := none, city := none, region := none, country := none } =
      "Starlink" ∧
    network_type { org := some "Comcast", asn := some "AS7922", loc := none,
                   city := none, region := none, country := none } = "Comcast" :=
  ⟨(C2_classify _).1 (Or.inl rfl), (C2_classify _).2 (by decide) (by decide)⟩

/-- C3: on `ConfigRetrievalError` the measure call returns (not raises) the
three `"Error"` sentinels, and `get_internet_details` still builds a
complete record whose speed fields are `"Error"` and whose identity fields
are populated normally. -/
theorem C3_config_failure_builds_record (ip now : String) (i : IspInfo) :
    get_internet_speed .configRetrievalError =
      .ok { download := .str "Error", upload := .str "Error", ping := .str "Error" } ∧
    get_internet_details (.ok ip) (.ok i) .configRetrievalError now =
      .ok { timestamp := now
            ipAddress := ip
            isp := i.org.getD "Unknown"
            city := i.city.getD "Unknown"
            region := i.region.getD "Unknown"
            country := i.country.getD "Unknown"
            latitude :=
              if (pySplitChar ',' (i.loc.getD "Unknown,Unknown")).length > 1
              then (pySplitChar ',' (i.loc.getD "Unknown,Unknown")).getD 0 "Unknown"
              else "Unknown"
            longitude :=
              if (pySplitChar ',' (i.loc.getD "Unknown,Unknown")).length > 1
              then (pySplitChar ',' (i.loc.getD "Unknown,Unknown")).getD 1 "Unknown"
              else "Unknown"
            networkType := network_type i
            download := .str "Error"
            upload := .str "Error"
            ping := .str "Error" } :=
  ⟨rfl, rfl⟩

/-- C4: a failing public-IP lookup or ISP lookup leaves the cycle without a
record and the log unchanged: `save_to_csv` never runs. -/
theorem C4_lookup_failure_skips_append (file : CsvFile) (e e2 : PyErr)
    (ipRes : Except PyErr String) (ispRes : Except PyErr IspInfo)
    (speed : SpeedtestOutcome) (now : String) :
    update_dashboard file (.error e) ispRes speed now = (file, none) ∧
    update_dashboard file ipRes (.error e2) speed now = (file, none) := by
  constructor
  · rfl
  · cases ipRes <;> rfl

/-- C5 counterexample: the code tests `len(loc) > 1`, not `== 2`, so a
location string splitting into three parts does NOT default to
`"Unknown"`: at `loc = "1,2,3"` the record carries latitude `"1"` and
longitude `"2"`, refuting the claim that both are `"Unknown"` whenever the
string does not split into exactly two parts. -/
theorem C5_counterexample_three_parts :
    (pySplitChar ',' "1,2,3").length ≠ 2 ∧
    (get_internet_details (.ok "203.0.113.5")
        (.ok { org := some "Comcast", asn := some "AS7922", loc := some "1,2,3",
               city := some "Denver", region := some "Colorado", country := some "US" })
        (.ok 0 0 0) "2026-01-01 00:00:00").toOption.map
      (fun r => (r.latitude, r.longitude)) = some ("1", "2") ∧
    (("1" : String), ("2" : String)) ≠ ("Unknown", "Unknown") := by
  refine ⟨by decide, rfl, by decide⟩

/-- C5 (amended): the builder splits the location string on commas; both
coordinates default to `"Unknown"` exactly when the split yields at most
one part (no comma), and otherwise latitude and longitude are the first
and second parts; `"bad-loc"` gives `"Unknown"`/`"Unknown"` and
`"33.1,-96.8"` gives `"33.1"`/`"-96.8"`. -/
theorem C5_amended_lat_lon (ip now : String) (i : IspInfo) (d u p : ℚ) :
    (get_internet_details (.ok ip) (.ok i) (.ok d u p) now).toOption.map
        (fun r => (r.latitude, r.longitude)) =
      some (if (pySplitChar ',' (i.loc.getD "Unknown,Unknown")).length > 1
            then ((pySplitChar ',' (i.loc.getD "Unknown,Unknown")).getD 0 "Unknown",
                  (pySplitChar ',' (i.loc.getD "Unknown,Unknown")).getD 1 "Unknown")
            else ("Unknown", "Unknown")) ∧
    (get_internet_details (.ok ip)
        (.ok { org := some "Comcast", asn := some "AS7922", loc := some "bad-loc",
               city := some "Denver", region := some "Colorado", country := some "US" })
        (.ok d u p) now).toOption.map (fun r => (r.latitude, r.longitude)) =
      some ("Unknown", "Unknown") ∧
    (get_internet_details (.ok ip)
        (.ok { org := some "Space Exploration Technologies Corp",
               asn := some "AS14593", loc := some "33.1,-96.8",
               city := some "Plano", region := some "Texas", country := some "US" })
        (.ok d u p) now).toOption.map (fun r => (r.latitude, r.longitude)) =
      some ("33.1", "-96.8") := by
  refine ⟨?_, rfl, rfl⟩
  by_cases h : (pySplitChar ',' (i.loc.getD "Unknown,Unknown")).length > 1
  · show some (if (pySplitChar ',' (i.loc.getD "Unknown,Unknown")).length > 1
        then (pySplitChar ',' (i.loc.getD "Unknown,Unknown")).getD 0 "Unknown"
        else "Unknown",
      if (pySplitChar ',' (i.loc.getD "Unknown,Unknown")).length > 1
        then (pySplitChar ',' (i.loc.getD "Unknown,Unknown")).getD 1 "Unknown"
        else "Unknown") = _
    simp [h]
  · show some (if (pySplitChar ',' (i.loc.getD "Unknown,Unknown")).length > 1
        then (pySplitChar ',' (i.loc.getD "Unknown,Unknown")).getD 0 "Unknown"
        else "Unknown",
      if (pySplitChar ',' (i.loc.getD "Unknown,Unknown")).length > 1
        then (pySplitChar ',' (i.loc.getD "Unknown,Unknown")).getD 1 "Unknown"
        else "Unknown") = _
    simp [h]

/-- C6: loading a non-existent store is not an error: it yields zero rows
under the canonical fixed twelve-column header. -/
theorem C6_load_missing_store :
    load_data none = { header := fieldnames, rows := [] } ∧
    (load_data none).header = ["Timestamp", "IP Address", "ISP", "City", "Region",
      "Country", "Latitude", "Longitude", "Network Type", "Download Speed (Mbps)",
      "Upload Speed (Mbps)", "Ping (ms)"] ∧
    (load_data none).header.length = 12 ∧
    (load_data none).rows = [] :=
  ⟨rfl, rfl, rfl, rfl⟩

/-- C7 counterexample: the code divides the raw rates by 1 000 000, which
is NOT a byte-rate-to-Mbps conversion: at a raw download rate of
1 000 000, the code reports 1, while converting a byte-per-second rate of
1 000 000 to megabits per second gives 8. -/
theorem C7_counterexample :
    (get_internet_speed (.ok 1000000 2000000 5)).toOption.map SpeedInfo.download =
      some (.num 1) ∧
    spec_bytesPerSecondToMbps 1000000 = 8 ∧
    Field.num ((1000000 : ℚ) / 1000000) ≠ Field.num (spec_bytesPerSecondToMbps 1000000) := by
  refine ⟨?_, ?_, ?_⟩
  · show some (Field.num ((1000000 : ℚ) / 1000000)) = some (.num 1)
    norm_num
  · norm_num [spec_bytesPerSecondToMbps]
  · simp only [spec_bytesPerSecondToMbps, ne_eq, Field.num.injEq]
    norm_num

/-- C7 (amended): on a successful measurement the code normalizes the raw
download and upload rates as bit-per-second values, dividing each by
1 000 000 to obtain Mbps, and reports the ping latency unchanged in
milliseconds. -/
theorem C7_amended_normalization (d u p : ℚ) :
    get_internet_speed (.ok d u p) =
      .ok { download := .num (spec_bitsPerSecondToMbps d),
            upload := .num (spec_bitsPerSecondToMbps u),
            ping := .num p } :=
  rfl

/-- C8: only `ConfigRetrievalError` is converted into the sentinels; any
other exception from the measurement propagates out of
`get_internet_speed`, so the cycle builds no record and the log is left
unchanged. -/
theorem C8_other_exception_propagates (file : CsvFile) (ipRes : Except PyErr String)
    (ispRes : Except PyErr IspInfo) (now : String) :
    get_internet_speed .otherException = .error .speedtestError ∧
    get_internet_speed .configRetrievalError =
      .ok { download := .str "Error", upload := .str "Error", ping := .str "Error" } ∧
    update_dashboard file ipRes ispRes .otherException now = (file, none) := by
  refine ⟨rfl, rfl, ?_⟩
  cases ipRes with
  | error e => rfl
  | ok ip => cases ispRes <;> rfl

/-- C9: every record `get_internet_details` builds has homogeneous speed
fields: either all three are numeric measurements or all three are the
`"Error"` sentinel. -/
theorem C9_speed_fields_homogeneous (ipRes : Except PyErr String)
    (ispRes : Except PyErr IspInfo) (speed : SpeedtestOutcome) (now : String)
    (d : Details) (h : get_internet_details ipRes ispRes speed now = .ok d) :
    (d.download.isNum ∧ d.upload.isNum ∧ d.ping.isNum) ∨
    (d.download = .str "Error" ∧ d.upload = .str "Error" ∧ d.ping = .str "Error") := by
  cases ipRes with
  | error e => exact Except.noConfusion h
  | ok ip =>
    cases ispRes with
    | error e => exact Except.noConfusion h
    | ok i =>
      cases speed with
      | ok dl ul pg =>
        injection h with h
        subst h
        left
        exact ⟨rfl, rfl, rfl⟩
      | configRetrievalError =>
        injection h with h
        subst h
        right
        exact ⟨rfl, rfl, rfl⟩
      | otherException => exact Except.noConfusion h

/-- A concrete record produced on the configuration-failure path, used to
instantiate C9. -/
def configErrorRecord : Details :=
  { timestamp := "2026-01-01 00:00:00", ipAddress := "203.0.113.5",
    isp := "Comcast", city := "Denver", region := "Colorado", country := "US",
    latitude := "39.7", longitude := "-104.9", networkType := "Comcast",
    download := .str "Error", upload := .str "Error", ping := .str "Error" }

/-- Witness for C9 at a concrete configuration-failure cycle. -/
theorem C9_speed_fields_homogeneous_witness :
    (configErrorRecord.download.isNum ∧ configErrorRecord.upload.isNum ∧
      configErrorRecord.ping.isNum) ∨
    (configErrorRecord.download = .str "Error" ∧
      configErrorRecord.upload = .str "Error" ∧
      configErrorRecord.ping = .str "Error") :=
  C9_speed_fields_homogeneous (.ok "203.0.113.5")
    (.ok { org := some "Comcast", asn := some "AS7922", loc := some "39.7,-104.9",
           city := some "Denver", region := some "Colorado", country := some "US" })
    .configRetrievalError "2026-01-01 00:00:00" configErrorRecord rfl

/-- C10: classification depends only on the `org` and `asn` fields, and the
match is exact, case-sensitive string equality: agreeing `org`/`asn` give
the same result, while case changes or surrounding text never match. -/
theorem C10_classifier_exact_org_asn_only :
    (∀ i1 i2 : IspInfo, i1.org = i2.org → i1.asn = i2.asn →
      is_starlink i1 = is_starlink i2 ∧ network_type i1 = network_type i2) ∧
    is_starlink { org := some "space exploration technologies corp", asn := none,
                  loc := none, city := none, region := none, country := none } = false ∧
    is_starlink { org := some "Space Exploration Technologies Corp.", asn := none,
                  loc := none, city := none, region := none, country := none } = false ∧
    is_starlink { org := none, asn := some "as14593", loc := none,
                  city := none, region := none, country := none } = false ∧
    is_starlink { org := none, asn := some "AS145930", loc := none,
                  city := none, region := none, country := none } = false := by
  refine ⟨?_, by decide, by decide, by decide, by decide⟩
  intro i1 i2 h1 h2
  constructor
  · simp [is_starlink, h1, h2]
  · simp [network_type, is_starlink, h1, h2]

/-- Witness for C10: two `ispInfo` values agreeing on `org`/`asn` but
differing elsewhere classify identically. -/
theorem C10_classifier_witness :
    is_starlink { org := some "Comcast", asn := some "AS7922", loc := some "1,2",
                  city := some "Denver", region := none, country := none } =
      is_starlink { org := some "Comcast", asn := some "AS7922", loc := none,
                    city := some "Plano", region := some "Texas", country := some "US" } ∧
    network_type { org := some "Comcast", asn := some "AS7922", loc := some "1,2",
                   city := some "Denver", region := none, country := none } =
      network_type { org := some "Comcast", asn := some "AS7922", loc := none,
                     city := some "Plano", region := some "Texas", country := some "US" } :=
  C10_classifier_exact_org_asn_only.1 _ _ rfl rfl

end Wifi
